import Mathlib

/-!
Verification of the sqlmesh audit-definition and snapshot-evaluator core.

The definitions below are a shallow embedding of
`sqlmesh/core/audit/definition.py` and `sqlmesh/core/snapshot/evaluator.py`.
SQL expressions are represented only as far as the embedded code inspects
them; the engine adapter is represented by its observable behaviour
(capability flags and per-table outcomes), and the evaluator's effect is the
trace of adapter calls it issues.
-/

namespace Sqlmesh

/-! ## Audit definitions (`sqlmesh/core/audit/definition.py`) -/

/-- A parsed sqlglot expression used as the value of an audit metadata
property: either a boolean literal (`exp.Boolean`, whose `this` carries the
Bool) or any other expression, represented by its textual `name`. -/
inductive MetaVal where
  | boolean (b : Bool)
  | ident (s : String)
deriving DecidableEq

/-- A parsed statement in an audit file, as far as `Audit.load` inspects it:
an `AUDIT(...)` header (`d.Audit`) carrying named properties, a query
(`exp.Subqueryable`) carrying its selected expressions, or anything else. -/
inductive Stmt where
  | auditHeader (props : List (String × MetaVal))
  | query (selects : List String)
  | other
deriving DecidableEq

def Stmt.isAuditHeader : Stmt → Bool
  | .auditHeader _ => true
  | _ => false

def Stmt.props : Stmt → List (String × MetaVal)
  | .auditHeader ps => ps
  | _ => []

def Stmt.isQuery : Stmt → Bool
  | .query _ => true
  | _ => false

def Stmt.selects : Stmt → List String
  | .query sel => sel
  | _ => []

/-- `AuditMeta._string_validator`: an expression is coerced via its textual
`name` (a boolean literal has no textual `this`, hence empty). -/
def string_validator : MetaVal → String
  | .boolean _ => ""
  | .ident s => s

/-- `AuditMeta._bool_validator`: an `exp.Boolean` yields its `this`; any
other expression yields `v.name.lower() not in ("false", "no")`. -/
def bool_validator : MetaVal → Bool
  | .boolean b => b
  | .ident s => !(s.toLower == "false" || s.toLower == "no")

/-- `AuditMeta`: metadata for audits defined in SQL.  `dialect` defaults to
the empty string, `skip` to `false`, `blocking` to `true`. -/
structure AuditMeta where
  name : String
  model : String
  dialect : String := ""
  skip : Bool := false
  blocking : Bool := true
deriving DecidableEq

/-- The fields of `AuditMeta`, in declaration order. -/
def AuditMeta.allFields : List String :=
  ["name", "model", "dialect", "skip", "blocking"]

/-- The `AuditMeta` fields with no default value. -/
def AuditMeta.requiredFields : List String := ["name", "model"]

/-- Modelled from the spec: `PydanticModel.missing_required_fields` (in
`sqlmesh.utils.pydantic`, outside the provided sources) — "required metadata
fields (`name`, `model`) must be present". -/
def AuditMeta.missing_required_fields (provided : List String) : List String :=
  AuditMeta.requiredFields.filter (fun f => !(provided.contains f))

/-- Modelled from the spec: `PydanticModel.extra_fields` (in
`sqlmesh.utils.pydantic`, outside the provided sources) — "no unrecognized
fields allowed". -/
def AuditMeta.extra_fields (provided : List String) : List String :=
  provided.filter (fun f => !(AuditMeta.allFields.contains f))

/-- Looking a property up in the header's property list.  The Python code
builds a dict comprehension, so a later duplicate key wins: we search the
reversed list. -/
def lookupProp (props : List (String × MetaVal)) (field : String) :
    Option MetaVal :=
  (props.reverse.find? (fun p => p.fst == field)).map Prod.snd

/-- Construction of `AuditMeta` from the header's properties, applying the
field validators and the field defaults. -/
def AuditMeta.ofProps (props : List (String × MetaVal)) : AuditMeta :=
  { name := ((lookupProp props "name").map string_validator).getD ""
    model := ((lookupProp props "model").map string_validator).getD ""
    dialect := ((lookupProp props "dialect").map string_validator).getD ""
    skip := ((lookupProp props "skip").map bool_validator).getD false
    blocking := ((lookupProp props "blocking").map bool_validator).getD true }

/-- An `AuditConfigError` raised through `_raise_config_error`, carrying the
message and the source path. -/
structure ConfigError where
  msg : String
  path : String
deriving DecidableEq

/-- `Audit`: an immutable value parsed from one audit block. `query` holds
the selected expressions of the trailing query; `expressions` the auxiliary
statements between the header and the query. -/
structure Audit extends AuditMeta where
  query : List String
  expressions : List Stmt
deriving DecidableEq

def incompleteAuditMsg : String :=
  "Incomplete audit definition, missing AUDIT or QUERY"

def auditStatementRequiredMsg : String :=
  "AUDIT statement is required as the first statement in the definition"

/-- `Audit.load`: load one audit block `[header, *statements, query]`,
checking, in source order: at least two statements; the first statement is a
`d.Audit` header; no required metadata field is missing; no extra metadata
field is present; the trailing statement is a query; the query selects at
least one column. -/
def Audit.load (expressions : List Stmt) (path : String) :
    Except ConfigError Audit :=
  match expressions with
  | meta :: rest@(_ :: _) =>
    let statements := rest.dropLast
    let query := rest.getLastD .other
    if !meta.isAuditHeader then
      .error ⟨auditStatementRequiredMsg, path⟩
    else
      let provided := meta.props.map Prod.fst
      if !(AuditMeta.missing_required_fields provided).isEmpty then
        .error ⟨"Missing required fields in the audit definition", path⟩
      else if !(AuditMeta.extra_fields provided).isEmpty then
        .error ⟨"Invalid extra fields in the audit definition", path⟩
      else if !query.isQuery then
        .error ⟨"Missing SELECT query in the audit definition", path⟩
      else if query.selects.isEmpty then
        .error ⟨"Query missing select statements", path⟩
      else
        .ok { AuditMeta.ofProps meta.props with
              query := query.selects
              expressions := statements }
  | _ => .error ⟨incompleteAuditMsg, path⟩

/-- The recursion of `Audit.load_multiple`: walk the statements keeping the
current block; a new `AUDIT` header with a nonempty current block flushes the
block through `Audit.load`; the final block is always flushed at the end. -/
def Audit.load_multiple_go (path : String) :
    List Stmt → List Stmt → Except ConfigError (List Audit)
  | [], block => (Audit.load block path).map (fun a => [a])
  | e :: rest, block =>
    if e.isAuditHeader && !block.isEmpty then
      match Audit.load block path with
      | .error err => .error err
      | .ok a => (Audit.load_multiple_go path rest [e]).map (fun as => a :: as)
    else
      Audit.load_multiple_go path rest (block ++ [e])

/-- `Audit.load_multiple`: split a statement stream into audit blocks and
load each one. -/
def Audit.load_multiple (expressions : List Stmt) (path : String) :
    Except ConfigError (List Audit) :=
  Audit.load_multiple_go path expressions []

/-! ## Snapshot evaluator (`sqlmesh/core/snapshot/evaluator.py`) -/

/-- The materialization kinds the evaluator branches on; every other kind
behaves like `other`. -/
inductive SnapshotKind where
  | embedded
  | view
  | full
  | incremental_by_time_range
  | other
deriving DecidableEq

/-- The model attributes the embedded evaluator code reads: the declared
time column (if any), the conversion of a time value into the time column's
representation, and the rendered audit queries
(`model.render_audit_queries`, as the resulting `(audit, query)` pairs). -/
structure Model where
  time_column : Option String
  convert_to_time_column : Int → Int
  render_audit_queries : List (Audit × String)

/-- The snapshot attributes the embedded evaluator code reads.
`table_name b` is `snapshot.table_name(is_dev=b)`; `is_dev_table b` is
`snapshot.is_dev_table(b)`. -/
structure Snapshot where
  kind : SnapshotKind
  model : Model
  table_name : Bool → String
  is_dev_table : Bool → Bool

def Snapshot.is_embedded_kind (s : Snapshot) : Bool :=
  decide (s.kind = .embedded)

def Snapshot.is_view_kind (s : Snapshot) : Bool :=
  decide (s.kind = .view)

def Snapshot.is_full_kind (s : Snapshot) : Bool :=
  decide (s.kind = .full)

def Snapshot.is_incremental_by_time_range_kind (s : Snapshot) : Bool :=
  decide (s.kind = .incremental_by_time_range)

/-- The reduced snapshot view used by promotion and cleanup
(`SnapshotInfoLike` / its `table_info`). -/
structure SnapshotInfoLike where
  table_name : Bool → String
  version : String
  fingerprint : String
  view_name : String → String
  view_schema : String → Option String

/-- A write issued by the inner `apply` of `SnapshotEvaluator.evaluate`,
naming the adapter method and the target table (plus, for
`delete_insert_query`, the `BETWEEN` bound on the time column). -/
inductive WriteOp where
  | create_view (table : String)
  | insert_append (table : String)
  | replace_query (table : String)
  | insert_overwrite (table : String)
  | delete_insert_query (table : String) (time_column : String) (low high : Int)
deriving DecidableEq

/-- The failures the inner `apply` can raise: a `ConfigError`, or the failed
`assert model.time_column`. -/
inductive EvalError where
  | configError (msg : String)
  | assertionError
deriving DecidableEq

/-- The inner `apply(query_or_df, index)` of `SnapshotEvaluator.evaluate`,
reached only for non-embedded snapshots and only when no `limit` preview is
requested.  `supports_partitions` is the adapter capability flag;
`make_inclusive` is `sqlmesh.utils.date.make_inclusive` (outside the
evaluator), passed as a parameter. -/
def evaluateApply (supports_partitions : Bool)
    (make_inclusive : Int → Int → Int × Int)
    (snapshot : Snapshot) (start end_ : Int) (is_dev : Bool)
    (index : Nat) : Except EvalError WriteOp :=
  let table_name := snapshot.table_name is_dev
  if snapshot.is_view_kind then
    if index > 0 then
      .error (.configError "Cannot batch view creation.")
    else
      .ok (.create_view table_name)
  else if index > 0 then
    .ok (.insert_append table_name)
  else if snapshot.is_full_kind then
    .ok (.replace_query table_name)
  else if supports_partitions then
    .ok (.insert_overwrite table_name)
  else if snapshot.is_incremental_by_time_range_kind then
    match snapshot.model.time_column with
    | none => .error .assertionError
    | some col =>
      let bounds := make_inclusive start end_
      .ok (.delete_insert_query table_name col
            (snapshot.model.convert_to_time_column bounds.1)
            (snapshot.model.convert_to_time_column bounds.2))
  else
    .ok (.insert_append table_name)

/-- An `AuditResult` as returned by `SnapshotEvaluator.audit`. -/
structure AuditResult where
  audit : Audit
  count : Nat
  query : String
deriving DecidableEq

/-- The message of the `AuditError` raised on a failing audit. -/
def auditFailureMessage (a : Audit) (count : Nat) (query : String) : String :=
  "Audit " ++ a.name ++ " for model " ++ a.model ++ " failed.\nGot " ++
    toString count ++ " results, expected 0.\n" ++ query

/-- The warning logged for a failing non-blocking audit. -/
def auditWarnMessage (a : Audit) (count : Nat) (query : String) : String :=
  auditFailureMessage a count query ++
    "\nAudit is warn only so proceeding with execution."

/-- The observable outcome of `SnapshotEvaluator.audit`: the returned
results, the warnings logged, and the queries executed through
`adapter.fetchone`. -/
structure AuditOutcome where
  results : List AuditResult
  warnings : List String
  executed : List String
deriving DecidableEq

/-- The loop of `SnapshotEvaluator.audit` over the rendered audit queries.
`fetch_count q` is the count fetched by
`adapter.fetchone(select COUNT(*) from (q))`. -/
def auditGo (fetch_count : String → Nat) (raise_exception : Bool) :
    List (Audit × String) → Except String AuditOutcome
  | [] => .ok ⟨[], [], []⟩
  | (a, q) :: rest =>
    let count := fetch_count q
    if count ≠ 0 ∧ raise_exception = true then
      if a.blocking then
        .error (auditFailureMessage a count q)
      else
        match auditGo fetch_count raise_exception rest with
        | .error e => .error e
        | .ok o => .ok ⟨⟨a, count, q⟩ :: o.results,
                        auditWarnMessage a count q :: o.warnings,
                        q :: o.executed⟩
    else
      match auditGo fetch_count raise_exception rest with
      | .error e => .error e
      | .ok o => .ok ⟨⟨a, count, q⟩ :: o.results, o.warnings, q :: o.executed⟩

/-- `SnapshotEvaluator.audit`: skip entirely when the snapshot's current
table is a dev table, otherwise classify every rendered audit query. -/
def SnapshotEvaluator.audit (fetch_count : String → Nat) (snapshot : Snapshot)
    (raise_exception : Bool) (is_dev : Bool) : Except String AuditOutcome :=
  if snapshot.is_dev_table is_dev then
    .ok ⟨[], [], []⟩
  else
    auditGo fetch_count raise_exception snapshot.model.render_audit_queries

/-- A DDL call issued to the adapter by promotion or cleanup. -/
inductive AdapterCall where
  | table_exists (name : String)
  | drop_table (name : String)
  | drop_view (name : String)
  | create_schema (name : String)
  | create_view (name : String) (query : String)
deriving DecidableEq

/-- The adapter behaviour promotion and cleanup observe: whether a table
exists, and whether a `drop_table` / `drop_view` call raises. -/
structure AdapterBehavior where
  table_exists : String → Bool
  drop_table_fails : String → Bool
  drop_view_fails : String → Bool

/-- The per-table body of `SnapshotEvaluator._cleanup_snapshot`: if the
table exists, try `drop_table`, and on an exception fall back to
`drop_view`; an exception from the fallback propagates.  Returns the trace
of adapter calls. -/
def dropTableOrView (ab : AdapterBehavior) (table_name : String) :
    Except Unit (List AdapterCall) :=
  if ab.table_exists table_name then
    if ab.drop_table_fails table_name then
      if ab.drop_view_fails table_name then
        .error ()
      else
        .ok [.table_exists table_name, .drop_table table_name,
             .drop_view table_name]
    else
      .ok [.table_exists table_name, .drop_table table_name]
  else
    .ok [.table_exists table_name]

def cleanupGo (ab : AdapterBehavior) : List String → Except Unit (List AdapterCall)
  | [] => .ok []
  | n :: ns => do
    let c ← dropTableOrView ab n
    let cs ← cleanupGo ab ns
    pure (c ++ cs)

/-- `SnapshotEvaluator._cleanup_snapshot`: drop the permanent table name,
and also the dev table name when `version != fingerprint`. -/
def cleanup_snapshot (ab : AdapterBehavior) (s : SnapshotInfoLike) :
    Except Unit (List AdapterCall) :=
  let table_names := [s.table_name false] ++
    (if s.version ≠ s.fingerprint then [s.table_name true] else [])
  cleanupGo ab table_names

/-- `SnapshotEvaluator._promote_snapshot`: ensure the environment's schema,
then point the environment view at the physical table when it exists, and
drop the view when it does not.  `s.view_name env` is
`qualified_view_name.for_environment(env)`; `s.view_schema env` is
`qualified_view_name.schema_for_environment(env)`. -/
def promote_snapshot (ab : AdapterBehavior) (s : SnapshotInfoLike)
    (environment : String) : List AdapterCall :=
  let schemaCalls := match s.view_schema environment with
    | some schema => [AdapterCall.create_schema schema]
    | none => []
  let view_name := s.view_name environment
  let table_name := s.table_name false
  schemaCalls ++ [.table_exists table_name] ++
    (if ab.table_exists table_name then
      [.create_view view_name ("SELECT * FROM " ++ table_name)]
    else
      [.drop_view view_name])

/-- `SnapshotEvaluator.recycle`: call `adapter.recycle()`, catching any
exception and logging it.  The argument is the adapter call's outcome; the
result is the evaluator method's outcome together with the logged errors. -/
def SnapshotEvaluator.recycle (adapter_recycle : Except String Unit) :
    Except String (List String) :=
  match adapter_recycle with
  | .ok _ => .ok []
  | .error _ => .ok ["Failed to recycle Snapshot Evaluator"]

/-- `SnapshotEvaluator.close`: call `adapter.close()`, catching any
exception and logging it. -/
def SnapshotEvaluator.close (adapter_close : Except String Unit) :
    Except String (List String) :=
  match adapter_close with
  | .ok _ => .ok []
  | .error _ => .ok ["Failed to close Snapshot Evaluator"]

/-! ## Auxiliary definitions for the statements and their instantiations -/

/-- Whether an `Except` result is a success. -/
def exceptIsOk {ε α : Type} : Except ε α → Bool
  | .ok _ => true
  | .error _ => false

/-- The six `Audit.load` error cases, stated over the raw statement list the
way the claim words them: fewer than two statements; first statement not an
audit header; a required metadata field missing; an unrecognized metadata
field present; trailing statement not a query; query selecting no columns. -/
def claimedLoadError (es : List Stmt) : Bool :=
  decide (es.length < 2)
  || !(es.headD .other).isAuditHeader
  || !(AuditMeta.missing_required_fields
        ((es.headD .other).props.map Prod.fst)).isEmpty
  || !(AuditMeta.extra_fields ((es.headD .other).props.map Prod.fst)).isEmpty
  || !(es.getLastD .other).isQuery
  || (es.getLastD .other).selects.isEmpty

/-- A concrete model for instantiating the theorems. -/
def sampleModel : Model :=
  { time_column := some "ds"
    convert_to_time_column := fun t => t
    render_audit_queries := [] }

/-- A concrete snapshot of the given kind for instantiating the theorems. -/
def sampleSnapshot (k : SnapshotKind) : Snapshot :=
  { kind := k
    model := sampleModel
    table_name := fun is_dev => if is_dev then "tmp_tbl" else "tbl"
    is_dev_table := fun b => b }

/-- A concrete audit for instantiating the theorems. -/
def sampleAudit (blocking : Bool) : Audit :=
  { name := "assert_positive"
    model := "db.model"
    dialect := ""
    skip := false
    blocking := blocking
    query := ["1"]
    expressions := [] }

/-- A concrete snapshot carrying one rendered audit query. -/
def sampleAuditSnapshot (blocking : Bool) : Snapshot :=
  { kind := .full
    model := { time_column := none
               convert_to_time_column := fun t => t
               render_audit_queries := [(sampleAudit blocking, "q0")] }
    table_name := fun _ => "tbl"
    is_dev_table := fun _ => false }

/-- A concrete `SnapshotInfoLike` for instantiating the theorems. -/
def sampleInfo (version fingerprint : String) : SnapshotInfoLike :=
  { table_name := fun is_dev => if is_dev then "tmp_tbl" else "tbl"
    version := version
    fingerprint := fingerprint
    view_name := fun env => "env_view_" ++ env
    view_schema := fun env => some ("schema_" ++ env) }

/-- A concrete adapter behaviour with uniform answers. -/
def sampleAdapter (te dtf : Bool) : AdapterBehavior :=
  { table_exists := fun _ => te
    drop_table_fails := fun _ => dtf
    drop_view_fails := fun _ => false }

/-! ## Theorems -/

/-- C3: for a view-kind snapshot, `evaluate`'s `apply` with batch index 0
replaces the view definition entirely (a `create_view` of the target), and
for every batch index greater than 0 it raises
`ConfigError("Cannot batch view creation.")` instead of writing anything. -/
theorem evaluateApply_view_kind (sp : Bool) (mi : Int → Int → Int × Int)
    (s : Snapshot) (start end_ : Int) (is_dev : Bool)
    (hk : s.kind = SnapshotKind.view) :
    evaluateApply sp mi s start end_ is_dev 0 =
      .ok (.create_view (s.table_name is_dev)) ∧
    ∀ i : Nat, i > 0 → evaluateApply sp mi s start end_ is_dev i =
      .error (.configError "Cannot batch view creation.") := by
  constructor
  · simp [evaluateApply, Snapshot.is_view_kind, hk]
  · intro i hi
    simp [evaluateApply, Snapshot.is_view_kind, hk, hi]

/-- C3 witness: a concrete view snapshot at batch indices 0 and 1. -/
theorem evaluateApply_view_kind_witness :
    evaluateApply true (fun a b => (a, b)) (sampleSnapshot .view) 1 2 false 0 =
      .ok (.create_view "tbl") ∧
    evaluateApply true (fun a b => (a, b)) (sampleSnapshot .view) 1 2 false 1 =
      .error (.configError "Cannot batch view creation.") := by
  have h := evaluateApply_view_kind true (fun a b => (a, b))
    (sampleSnapshot .view) 1 2 false rfl
  exact ⟨h.1, h.2 1 (by decide)⟩

/-- C1: for a non-embedded, non-view, non-full snapshot at batch index 0
with no limit preview, `apply` chooses: `insert_overwrite` when the adapter
supports partitions; otherwise, for an `INCREMENTAL_BY_TIME_RANGE` snapshot
whose model declares a time column, a `delete_insert_query` bounded by the
conversion of `make_inclusive(start, end)` into the time column's
representation; otherwise a plain `insert_append`. -/
theorem evaluateApply_write_strategy (sp : Bool) (mi : Int → Int → Int × Int)
    (s : Snapshot) (start end_ : Int) (is_dev : Bool)
    (hk1 : s.kind ≠ SnapshotKind.embedded) (hk2 : s.kind ≠ SnapshotKind.view)
    (hk3 : s.kind ≠ SnapshotKind.full) :
    (sp = true →
      evaluateApply sp mi s start end_ is_dev 0 =
        .ok (.insert_overwrite (s.table_name is_dev))) ∧
    (sp = false →
      ∀ col, s.kind = SnapshotKind.incremental_by_time_range →
        s.model.time_column = some col →
        evaluateApply sp mi s start end_ is_dev 0 =
          .ok (.delete_insert_query (s.table_name is_dev) col
            (s.model.convert_to_time_column (mi start end_).1)
            (s.model.convert_to_time_column (mi start end_).2))) ∧
    (sp = false → s.kind ≠ SnapshotKind.incremental_by_time_range →
      evaluateApply sp mi s start end_ is_dev 0 =
        .ok (.insert_append (s.table_name is_dev))) := by
  refine ⟨?_, ?_, ?_⟩
  · intro hsp
    simp [evaluateApply, Snapshot.is_view_kind, Snapshot.is_full_kind, hk2,
      hk3, hsp]
  · intro hsp col hkind htc
    simp [evaluateApply, Snapshot.is_view_kind, Snapshot.is_full_kind,
      Snapshot.is_incremental_by_time_range_kind, hk2, hk3, hsp, hkind, htc]
  · intro hsp hkind
    simp [evaluateApply, Snapshot.is_view_kind, Snapshot.is_full_kind,
      Snapshot.is_incremental_by_time_range_kind, hk2, hk3, hsp, hkind]

/-- C1 witness: a concrete incremental-by-time-range snapshot without
partition support takes the bounded delete-then-insert. -/
theorem evaluateApply_write_strategy_witness :
    evaluateApply false (fun a b => (a, b))
      (sampleSnapshot .incremental_by_time_range) 5 9 false 0 =
      .ok (.delete_insert_query "tbl" "ds" 5 9) := by
  have h := evaluateApply_write_strategy false (fun a b => (a, b))
    (sampleSnapshot .incremental_by_time_range) 5 9 false
    (by decide) (by decide) (by decide)
  exact h.2.1 rfl "ds" rfl rfl

/-- C8: for the audit metadata fields `skip` and `blocking`, a parsed
boolean literal coerces to its boolean value; any other parsed expression
coerces to `false` exactly when its textual name, lowercased, equals
"false" or "no", and to `true` otherwise; an absent `blocking` defaults to
`true` and an absent `skip` to `false`. -/
theorem bool_validator_spec :
    (∀ b : Bool, bool_validator (.boolean b) = b) ∧
    (∀ s : String, (bool_validator (.ident s) = false ↔
        (s.toLower = "false" ∨ s.toLower = "no"))) ∧
    (∀ props, lookupProp props "blocking" = none →
        (AuditMeta.ofProps props).blocking = true) ∧
    (∀ props, lookupProp props "skip" = none →
        (AuditMeta.ofProps props).skip = false) := by
  refine ⟨fun b => rfl, ?_, ?_, ?_⟩
  · intro s
    simp [bool_validator]
    exact or_iff_not_imp_left.symm
  · intro props h
    simp [AuditMeta.ofProps, h]
  · intro props h
    simp [AuditMeta.ofProps, h]

/-- C8 witness: concrete coercions and defaults. -/
theorem bool_validator_spec_witness :
    bool_validator (.boolean false) = false ∧
    bool_validator (.ident "No") = false ∧
    (AuditMeta.ofProps [("name", .ident "a"), ("model", .ident "m")]).blocking
        = true ∧
    (AuditMeta.ofProps [("name", .ident "a"), ("model", .ident "m")]).skip
        = false := by
  refine ⟨bool_validator_spec.1 false,
    (bool_validator_spec.2.1 "No").mpr
      (Or.inr (by rw [String.toLower, String.map_eq]; rfl)),
    bool_validator_spec.2.2.1 _ (by decide),
    bool_validator_spec.2.2.2 _ (by decide)⟩

/-- C9: `SnapshotEvaluator.recycle` and `SnapshotEvaluator.close` never
propagate an exception: whatever the underlying adapter call's outcome,
including an exception, both return normally. -/
theorem recycle_close_never_raise (r c : Except String Unit) :
    (∃ logs, SnapshotEvaluator.recycle r = .ok logs) ∧
    (∃ logs, SnapshotEvaluator.close c = .ok logs) := by
  constructor
  · cases r with
    | ok u => exact ⟨[], rfl⟩
    | error e => exact ⟨["Failed to recycle Snapshot Evaluator"], rfl⟩
  · cases c with
    | ok u => exact ⟨[], rfl⟩
    | error e => exact ⟨["Failed to close Snapshot Evaluator"], rfl⟩

/-- C7: `SnapshotEvaluator.audit` on a snapshot whose current table is a
dev table returns the empty list with no adapter calls, and the outcome is
the same for any snapshot that is likewise a dev table — the model's audit
queries are never consulted. -/
theorem audit_dev_table_skips (fc : String → Nat) (s : Snapshot)
    (raise_exception is_dev : Bool) (h : s.is_dev_table is_dev = true) :
    SnapshotEvaluator.audit fc s raise_exception is_dev = .ok ⟨[], [], []⟩ ∧
    ∀ s2 : Snapshot, s2.is_dev_table is_dev = true →
      SnapshotEvaluator.audit fc s2 raise_exception is_dev =
        SnapshotEvaluator.audit fc s raise_exception is_dev := by
  constructor
  · simp [SnapshotEvaluator.audit, h]
  · intro s2 h2
    simp [SnapshotEvaluator.audit, h, h2]

/-- C7 witness: a concrete dev-table snapshot. -/
theorem audit_dev_table_skips_witness :
    SnapshotEvaluator.audit (fun _ => 3) (sampleSnapshot .full) true true =
      .ok ⟨[], [], []⟩ :=
  (audit_dev_table_skips (fun _ => 3) (sampleSnapshot .full) true true rfl).1

/-- C2: `SnapshotEvaluator.audit` with `raise_exception = true` classifies a
rendered audit: a nonzero count on a blocking audit raises an `AuditError`
whose message carries the audit name, model name, count, and query; a
nonzero count on a non-blocking audit logs a warning, appends the
`AuditResult`, and continues with the remaining audits; a zero count
appends a passing result and continues. -/
theorem audit_classification (fc : String → Nat) (s : Snapshot)
    (is_dev : Bool) (hdev : s.is_dev_table is_dev = false)
    (a : Audit) (q : String) (rest : List (Audit × String))
    (hq : s.model.render_audit_queries = (a, q) :: rest) :
    (fc q ≠ 0 → a.blocking = true →
      SnapshotEvaluator.audit fc s true is_dev =
        .error (auditFailureMessage a (fc q) q) ∧
      auditFailureMessage a (fc q) q =
        "Audit " ++ a.name ++ " for model " ++ a.model ++ " failed.\nGot " ++
          toString (fc q) ++ " results, expected 0.\n" ++ q) ∧
    (fc q ≠ 0 → a.blocking = false →
      SnapshotEvaluator.audit fc s true is_dev =
        (auditGo fc true rest).map (fun o =>
          ⟨⟨a, fc q, q⟩ :: o.results,
           auditWarnMessage a (fc q) q :: o.warnings,
           q :: o.executed⟩)) ∧
    (fc q = 0 →
      SnapshotEvaluator.audit fc s true is_dev =
        (auditGo fc true rest).map (fun o =>
          ⟨⟨a, fc q, q⟩ :: o.results, o.warnings, q :: o.executed⟩)) := by
  refine ⟨?_, ?_, ?_⟩
  · intro hc hb
    refine ⟨?_, rfl⟩
    simp [SnapshotEvaluator.audit, hdev, hq, auditGo, hc, hb]
  · intro hc hb
    cases hgo : auditGo fc true rest with
    | error e =>
      simp [SnapshotEvaluator.audit, hdev, hq, auditGo, hc, hb, hgo,
        Except.map]
    | ok o =>
      simp [SnapshotEvaluator.audit, hdev, hq, auditGo, hc, hb, hgo,
        Except.map]
  · intro hc
    cases hgo : auditGo fc true rest with
    | error e =>
      simp [SnapshotEvaluator.audit, hdev, hq, auditGo, hc, hgo, Except.map]
    | ok o =>
      simp [SnapshotEvaluator.audit, hdev, hq, auditGo, hc, hgo, Except.map]

/-- C2 witness: a blocking audit with count 3 raises; a non-blocking one
returns the result and the warning instead. -/
theorem audit_classification_witness :
    SnapshotEvaluator.audit (fun _ => 3) (sampleAuditSnapshot true) true false
      = .error (auditFailureMessage (sampleAudit true) 3 "q0") ∧
    SnapshotEvaluator.audit (fun _ => 3) (sampleAuditSnapshot false) true false
      = .ok ⟨[⟨sampleAudit false, 3, "q0"⟩],
             [auditWarnMessage (sampleAudit false) 3 "q0"], ["q0"]⟩ := by
  have h1 := audit_classification (fun _ => 3) (sampleAuditSnapshot true)
    false rfl (sampleAudit true) "q0" [] rfl
  have h2 := audit_classification (fun _ => 3) (sampleAuditSnapshot false)
    false rfl (sampleAudit false) "q0" [] rfl
  exact ⟨(h1.1 (by decide) rfl).1, (h2.2.1 (by decide) rfl).trans rfl⟩

/-- C5: cleanup always processes the snapshot's permanent table name, and
additionally its dev table name exactly when `version` differs from
`fingerprint`; each processed name is existence-checked and then dropped,
with `drop_table` tried first and `drop_view` as the fallback on an
exception — both outcomes a success. -/
theorem cleanup_snapshot_spec (ab : AdapterBehavior) (s : SnapshotInfoLike) :
    (cleanup_snapshot ab s = do
        let c ← dropTableOrView ab (s.table_name false)
        let cs ← (if s.version ≠ s.fingerprint
          then dropTableOrView ab (s.table_name true)
          else pure [])
        pure (c ++ cs)) ∧
    (∀ n : String,
      (ab.table_exists n = true → ab.drop_table_fails n = false →
        dropTableOrView ab n = .ok [.table_exists n, .drop_table n]) ∧
      (ab.table_exists n = true → ab.drop_table_fails n = true →
        ab.drop_view_fails n = false →
        dropTableOrView ab n =
          .ok [.table_exists n, .drop_table n, .drop_view n]) ∧
      (ab.table_exists n = false →
        dropTableOrView ab n = .ok [.table_exists n])) := by
  constructor
  · by_cases hv : s.version = s.fingerprint <;>
      cases hperm : dropTableOrView ab (s.table_name false) <;>
      cases hdev : dropTableOrView ab (s.table_name true) <;>
      simp [cleanup_snapshot, cleanupGo, hv, hperm, hdev] <;> rfl
  · intro n
    refine ⟨?_, ?_, ?_⟩
    · intro h1 h2
      simp [dropTableOrView, h1, h2]
    · intro h1 h2 h3
      simp [dropTableOrView, h1, h2, h3]
    · intro h1
      simp [dropTableOrView, h1]

/-- C5 witness: a snapshot whose `version` equals its `fingerprint` has one
table processed; `drop_table` raising falls back to `drop_view`. -/
theorem cleanup_snapshot_spec_witness :
    cleanup_snapshot (sampleAdapter true true) (sampleInfo "v" "v") =
      .ok [.table_exists "tbl", .drop_table "tbl", .drop_view "tbl"] ∧
    dropTableOrView (sampleAdapter true true) "tbl" =
      .ok [.table_exists "tbl", .drop_table "tbl", .drop_view "tbl"] := by
  have h := cleanup_snapshot_spec (sampleAdapter true true) (sampleInfo "v" "v")
  refine ⟨h.1.trans (by rfl), (h.2 "tbl").2.1 rfl rfl rfl⟩

/-- C6: promotion first ensures the environment's schema, then, when the
snapshot's permanent physical table exists, (re)creates the environment
view as a `SELECT * FROM` that table, and when it does not exist, drops the
environment view instead of creating one. -/
theorem promote_snapshot_spec (ab : AdapterBehavior) (s : SnapshotInfoLike)
    (environment : String) :
    (∀ schema, s.view_schema environment = some schema →
      (promote_snapshot ab s environment).head? =
        some (.create_schema schema)) ∧
    (ab.table_exists (s.table_name false) = true →
      (AdapterCall.create_view (s.view_name environment)
          ("SELECT * FROM " ++ s.table_name false))
        ∈ promote_snapshot ab s environment ∧
      (AdapterCall.drop_view (s.view_name environment))
        ∉ promote_snapshot ab s environment) ∧
    (ab.table_exists (s.table_name false) = false →
      (AdapterCall.drop_view (s.view_name environment))
        ∈ promote_snapshot ab s environment ∧
      ∀ q, (AdapterCall.create_view (s.view_name environment) q)
        ∉ promote_snapshot ab s environment) := by
  refine ⟨?_, ?_, ?_⟩
  · intro schema hs
    simp [promote_snapshot, hs]
  · intro hte
    cases hs : s.view_schema environment <;>
      simp [promote_snapshot, hs, hte]
  · intro hte
    cases hs : s.view_schema environment <;>
      simp [promote_snapshot, hs, hte]

/-- C6 witness: with a missing physical table the view is dropped; the
schema-creation call comes first. -/
theorem promote_snapshot_spec_witness :
    (promote_snapshot (sampleAdapter false false) (sampleInfo "v" "f")
        "prod").head? = some (.create_schema "schema_prod") ∧
    (AdapterCall.drop_view "env_view_prod")
      ∈ promote_snapshot (sampleAdapter false false) (sampleInfo "v" "f")
          "prod" := by
  have h := promote_snapshot_spec (sampleAdapter false false)
    (sampleInfo "v" "f") "prod"
  exact ⟨h.1 "schema_prod" rfl, (h.2.2 rfl).1⟩

/-- Helper: every `ConfigError` returned by `Audit.load` carries the
supplied source path. -/
theorem load_error_path (es : List Stmt) (path : String) :
    ∀ e, Audit.load es path = .error e → e.path = path := by
  intro e he
  rcases es with _ | ⟨meta, _ | ⟨x, xs⟩⟩
  · simp only [Audit.load] at he
    injection he with h
    rw [← h]
  · simp only [Audit.load] at he
    injection he with h
    rw [← h]
  · simp only [Audit.load] at he
    repeat' split at he
    all_goals
      first
        | (injection he with h; rw [← h])
        | exact Except.noConfusion he

/-- Helper: `Audit.load` succeeds exactly when none of the claimed error
cases applies. -/
theorem load_ok_iff_claimed (es : List Stmt) (path : String) :
    exceptIsOk (Audit.load es path) = true ↔ claimedLoadError es = false := by
  rcases es with _ | ⟨meta, _ | ⟨x, xs⟩⟩
  · simp [Audit.load, claimedLoadError, exceptIsOk]
  · simp [Audit.load, claimedLoadError, exceptIsOk]
  · have hlen : decide ((meta :: x :: xs : List Stmt).length < 2) = false := by
      simp
    simp only [Audit.load, claimedLoadError, List.headD, hlen,
      List.getLastD_cons, Bool.false_or]
    repeat' split
    all_goals simp_all [exceptIsOk]

/-- C4: `Audit.load` raises a `ConfigError` carrying the source path in
exactly these cases — fewer than two statements, first statement not an
audit header, a required metadata field missing, an unrecognized metadata
field present, trailing statement not a query, or a query selecting no
columns — and returns an `Audit` for every input avoiding all of them. -/
theorem load_ok_iff (es : List Stmt) (path : String) :
    (∀ e, Audit.load es path = .error e → e.path = path) ∧
    (exceptIsOk (Audit.load es path) = true ↔ claimedLoadError es = false) :=
  ⟨load_error_path es path, load_ok_iff_claimed es path⟩

/-- C4 witness: a well-formed two-statement block loads, and the error on
the empty block carries the path. -/
theorem load_ok_iff_witness :
    exceptIsOk (Audit.load
      [Stmt.auditHeader [("name", MetaVal.ident "a"),
                         ("model", MetaVal.ident "m")],
       Stmt.query ["c1"]] "p") = true ∧
    (⟨incompleteAuditMsg, "p"⟩ : ConfigError).path = "p" := by
  refine ⟨(load_ok_iff _ "p").2.mpr (by decide),
    (load_ok_iff [] "p").1 _ (by rfl)⟩

/-- Helper: a successful `Audit.load_multiple_go` never returns an empty
list of audits. -/
theorem load_multiple_go_ok_ne_nil (path : String) :
    ∀ es block as, Audit.load_multiple_go path es block = .ok as →
      as ≠ [] := by
  intro es
  induction es with
  | nil =>
    intro block as h
    simp only [Audit.load_multiple_go] at h
    cases hl : Audit.load block path with
    | error e => rw [hl] at h; exact Except.noConfusion h
    | ok a =>
      rw [hl] at h
      injection h with h2
      rw [← h2]
      simp
  | cons e rest ih =>
    intro block as h
    simp only [Audit.load_multiple_go] at h
    split at h
    · cases hl : Audit.load block path with
      | error err => rw [hl] at h; exact Except.noConfusion h
      | ok a =>
        rw [hl] at h
        cases hgo : Audit.load_multiple_go path rest [e] with
        | error err => rw [hgo] at h; exact Except.noConfusion h
        | ok as2 =>
          rw [hgo] at h
          injection h with h2
          rw [← h2]
          simp
    · exact ih _ _ h

/-- Helper: when no statement is an audit header, `load_multiple_go` only
flushes the one final block. -/
theorem load_multiple_go_no_header (path : String) :
    ∀ es block, (∀ e ∈ es, e.isAuditHeader = false) →
      Audit.load_multiple_go path es block =
        (Audit.load (block ++ es) path).map (fun a => [a]) := by
  intro es
  induction es with
  | nil =>
    intro block h
    simp [Audit.load_multiple_go]
  | cons e rest ih =>
    intro block h
    have he : e.isAuditHeader = false := h e (by simp)
    have hrest : ∀ e2 ∈ rest, e2.isAuditHeader = false :=
      fun e2 m => h e2 (by simp [m])
    simp only [Audit.load_multiple_go, he, Bool.false_and, if_neg,
      Bool.false_eq_true, not_false_eq_true]
    rw [ih (block ++ [e]) hrest]
    simp

/-- Helper: `Audit.load` fails on any block whose statements contain no
audit header. -/
theorem load_no_header_error (es : List Stmt) (path : String)
    (h : ∀ e ∈ es, e.isAuditHeader = false) :
    ∃ err, Audit.load es path = .error err := by
  rcases es with _ | ⟨meta, _ | ⟨x, xs⟩⟩
  · exact ⟨_, rfl⟩
  · exact ⟨_, rfl⟩
  · have hm : meta.isAuditHeader = false := h meta (by simp)
    refine ⟨⟨auditStatementRequiredMsg, path⟩, ?_⟩
    simp [Audit.load, hm]

/-- C10: `Audit.load_multiple` never produces an empty sequence of audits:
a success is a nonempty list, the empty input flushes the empty trailing
block into the incomplete-definition `ConfigError`, and a header-less input
also ends in a `ConfigError` rather than zero audits. -/
theorem load_multiple_never_empty (es : List Stmt) (path : String) :
    (∀ as, Audit.load_multiple es path = .ok as → as ≠ []) ∧
    (Audit.load_multiple ([] : List Stmt) path =
      .error ⟨incompleteAuditMsg, path⟩) ∧
    ((∀ e ∈ es, e.isAuditHeader = false) →
      ∃ err, Audit.load_multiple es path = .error err) := by
  refine ⟨fun as h => load_multiple_go_ok_ne_nil path es [] as h, rfl, ?_⟩
  intro h
  rw [Audit.load_multiple, load_multiple_go_no_header path es [] h]
  obtain ⟨err, herr⟩ := load_no_header_error es path h
  exact ⟨err, by rw [List.nil_append, herr]; rfl⟩

/-- C10 witness: a header-less two-statement input yields a `ConfigError`,
and the empty input yields the incomplete-definition error. -/
theorem load_multiple_never_empty_witness :
    (∃ err, Audit.load_multiple [Stmt.other, Stmt.other] "p" = .error err) ∧
    Audit.load_multiple ([] : List Stmt) "p" =
      .error ⟨incompleteAuditMsg, "p"⟩ :=
  ⟨(load_multiple_never_empty [Stmt.other, Stmt.other] "p").2.2 (by decide),
   (load_multiple_never_empty [] "p").2.1⟩

end Sqlmesh
